import Mathlib

/-!
The psabpf pipeline: load, attach and detach (`lib/psabpf_pipeline.c`).

A shallow embedding of `lib/psabpf_pipeline.c`.  The C functions call into the
kernel, libbpf and the shell; those calls are embedded as primitives over an
explicit `World`: the answers of the outside world are fields of the record
(named `r_...`), what the calls change is state of the same record.  C `int`s
are `Int`, and the conversions from `unsigned` to `int` go through `toInt32`.
Negation of an `int` is negation on `Int`: the one `int` whose negation
overflows has no defined result in C.  C strings are lists of characters.
-/

namespace Psabpf

/-! ## Constants and basic types -/

/-- A C string, without its terminating NUL. -/
abbrev CStr := List Char

/-- Value of `EINVAL` in `<errno.h>` on Linux. -/
def EINVAL : Int := 22

/-- Value of `ENOENT` in `<errno.h>` on Linux. -/
def ENOENT : Int := 2

/-- Value of `EOPNOTSUPP` in `<errno.h>` on Linux. -/
def EOPNOTSUPP : Int := 95

/-- Value of `EBADF` in `<errno.h>` on Linux. -/
def EBADF : Int := 9

/-- Modelled from the spec: the success outcome `NO_ERROR`, a constant of a header
that is not part of the file; the success paths of the file itself `return 0`. -/
def NO_ERROR : Int := 0

/-- Value of `XDP_FLAGS_SKB_MODE` in `<linux/if_link.h>`, `1U << 1`. -/
def XDP_FLAGS_SKB_MODE : Nat := 2

/-- Value of `XDP_FLAGS_DRV_MODE` in `<linux/if_link.h>`, `1U << 2`. -/
def XDP_FLAGS_DRV_MODE : Nat := 4

/-- Conversion of an unsigned 32-bit value to `int`, as in `(int) if_nametoindex(intf)`
and `(int) devmap->max_entries`: two's complement wrap-around. -/
def toInt32 (n : Nat) : Int :=
  if n % 2 ^ 32 < 2 ^ 31 then ((n % 2 ^ 32 : Nat) : Int) else ((n % 2 ^ 32 : Nat) : Int) - 2 ^ 32

/-- The string constants of `bpf_defs.h`, a header that is not part of the file.
They are parameters of the embedding. -/
structure BpfDefs where
  BPF_FS : CStr
  PIPELINE_PREFIX : CStr
  TC_INIT_PROG : CStr
  XDP_INIT_PROG : CStr
  TC_INGRESS_PROG : CStr
  TC_EGRESS_PROG : CStr
  XDP_HELPER_PROG : CStr
  XDP_INGRESS_PROG : CStr
  XDP_EGRESS_PROG : CStr
  XDP_EGRESS_PROG_OPTIMIZED : CStr
  XDP_DEVMAP : CStr
  XDP_JUMP_TBL : CStr

/-- The conversion `%d` of the `printf` family. -/
def fmt_d (n : Int) : CStr := (toString n).toList

/-- What `snprintf(buf, 256, ...)` leaves in a 256-byte buffer: at most 255
characters of the formatted text. -/
def snprintf256 (s : CStr) : CStr := s.take 255

/-- The text of `"%s/%s%d/%s"` for `BPF_FS, PIPELINE_PREFIX, id, name`. -/
def pin_path_text (k : BpfDefs) (id : Int) (name : CStr) : CStr :=
  k.BPF_FS ++ ['/'] ++ k.PIPELINE_PREFIX ++ fmt_d id ++ ['/'] ++ name

/-- A kernel object that a file descriptor refers to: an object pinned at a path,
or a table opened by `open_bpf_map` from a base path and a name. -/
inductive Obj where
  | pin (path : CStr)
  | map (base : CStr) (name : CStr)
deriving DecidableEq, Repr

/-- The `struct bpf_devmap_val` of `<linux/bpf.h>`. -/
structure bpf_devmap_val where
  ifindex : Int
  bpf_prog_fd : Int
deriving DecidableEq, Repr

/-- A value handed to `bpf_map_update_elem`: a redirect-table value or, for the
indirection table, a program descriptor. -/
inductive MapVal where
  | devmap (v : bpf_devmap_val)
  | prog_fd (fd : Int)
deriving DecidableEq, Repr

/-- The fields of `psabpf_bpf_map_descriptor_t` that the file reads.  `max_entries`
is the unsigned 32-bit capacity the kernel reports; the file reads it through
`(int) devmap->max_entries`. -/
structure psabpf_bpf_map_descriptor_t where
  fd : Int
  max_entries : Nat
deriving DecidableEq, Repr

/-- The `psabpf_pipeline_t` of `psabpf_pipeline.h`. -/
structure psabpf_pipeline_t where
  id : Int
  obj : CStr
deriving DecidableEq, Repr

/-- Result of a system call that reports failure through `errno`. -/
structure SysRet where
  ret : Int
  errno : Int
deriving DecidableEq, Repr

/-- One call of `bpf_set_link_xdp_fd` and what it returned. -/
structure XdpCall where
  ifindex : Int
  fd : Int
  flags : Nat
  ret : Int
deriving DecidableEq, Repr

/-- One call of `bpf_map_update_elem`: the object the descriptor referred to (if
any), the key, the value and the return value. -/
structure MapCall where
  target : Option Obj
  key : Int
  val : MapVal
  ret : Int
deriving DecidableEq, Repr

/-- The messages the file prints on `stderr`. -/
inductive LogMsg where
  | native_unsupported
  | devmap_modulo (ifindex : Int) (intf : CStr) (max_entries : Nat)
  | cannot_load (code : Int)
deriving DecidableEq, Repr

/-- The world outside the file.  The `r_...` fields are the answers of the kernel,
of libbpf and of the shell; the other fields are state that the calls change. -/
structure World where
  /-- Answer of `if_nametoindex`. -/
  r_if_nametoindex : CStr → Nat
  /-- Answer of `access(path, F_OK)`. -/
  r_access : CStr → Int
  /-- Answer of `bpf_obj_get(path)`: a descriptor, or a negative value and `errno`. -/
  r_obj_get : CStr → SysRet
  /-- Answer of `open_bpf_map(NULL, name, base, &desc)`: a result code and the descriptor. -/
  r_open_bpf_map : CStr → CStr → Int × psabpf_bpf_map_descriptor_t
  /-- Answer of `bpf_set_link_xdp_fd(ifindex, fd, flags)`. -/
  r_set_link_xdp : Int → Int → Nat → Int
  /-- Answer of `bpf_map_update_elem` on a kernel object. -/
  r_map_update : Obj → Int → MapVal → SysRet
  /-- Exit status of `system(cmd)`, given the number of commands run before. -/
  r_system : Nat → CStr → Int
  errno : Int
  /-- Open descriptors and what they refer to, most recent first. -/
  fds : List (Int × Obj)
  /-- Contents of the kernel tables. -/
  tables : Obj → Int → Option MapVal
  xdp_calls : List XdpCall
  map_calls : List MapCall
  /-- Commands handed to `system`, in order. -/
  tc_cmds : List CStr
  stderr : List LogMsg

/-! ## Primitives -/

/-- The object a descriptor refers to. -/
def fd_lookup (fds : List (Int × Obj)) (fd : Int) : Option Obj :=
  match fds with
  | [] => none
  | (n, o) :: rest => if n = fd then some o else fd_lookup rest fd

/-- The call `fprintf(stderr, ...)`. -/
def fprintf_stderr (w : World) (m : LogMsg) : World :=
  { w with stderr := w.stderr ++ [m] }

/-- The open descriptors after a call that opens an object: unchanged when the call
failed, with the new descriptor in front otherwise. -/
def fds_add (fds : List (Int × Obj)) (failed : Bool) (fd : Int) (o : Obj) : List (Int × Obj) :=
  if failed then fds else (fd, o) :: fds

/-- The open descriptors after `close(fd)`; a negative `fd` is not a descriptor. -/
def fds_close (fds : List (Int × Obj)) (fd : Int) : List (Int × Obj) :=
  if 0 ≤ fd then fds.filter (fun e => !decide (e.1 = fd)) else fds

/-- The call `bpf_obj_get(path)`: a negative return value leaves the error in `errno`,
any other is a new descriptor for the object pinned at the path. -/
def bpf_obj_get (w : World) (path : CStr) : Int × World :=
  let r := w.r_obj_get path
  (r.ret,
    { w with
      errno := if r.ret < 0 then r.errno else w.errno,
      fds := fds_add w.fds (decide (r.ret < 0)) r.ret (Obj.pin path) })

/-- Modelled from the spec: `close_object_fd` of `common.h`, which releases a handle. -/
def close_object_fd (w : World) (fd : Int) : World :=
  { w with fds := fds_close w.fds fd }

/-- Modelled from the spec: `open_bpf_map` of `common.h`, which opens the table `name`
below `base`; on `NO_ERROR` the descriptor refers to that table. -/
def open_bpf_map (w : World) (name : CStr) (base : CStr) :
    Int × psabpf_bpf_map_descriptor_t × World :=
  let r := w.r_open_bpf_map name base
  (r.1, r.2, { w with fds := fds_add w.fds (decide (r.1 ≠ NO_ERROR)) r.2.fd (Obj.map base name) })

/-- The call `bpf_set_link_xdp_fd(ifindex, fd, flags)`. -/
def bpf_set_link_xdp_fd (w : World) (ifindex : Int) (fd : Int) (flags : Nat) : Int × World :=
  let r := w.r_set_link_xdp ifindex fd flags
  (r, { w with xdp_calls := w.xdp_calls ++ [⟨ifindex, fd, flags, r⟩] })

/-- The answer to `bpf_map_update_elem` through a descriptor: `EBADF` when the
descriptor refers to nothing, the answer of the kernel for the table otherwise. -/
def map_update_answer (w : World) (target : Option Obj) (key : Int) (val : MapVal) : SysRet :=
  match target with
  | none => ⟨-1, EBADF⟩
  | some o => w.r_map_update o key val

/-- The call `bpf_map_update_elem(fd, &key, &val, 0)`: the kernel stores the value
in the table the descriptor refers to when it returns 0, and leaves the tables
alone and the error in `errno` otherwise. -/
def bpf_map_update_elem (w : World) (fd : Int) (key : Int) (val : MapVal) : Int × World :=
  let target := fd_lookup w.fds fd
  let r := map_update_answer w target key val
  (r.ret,
    { w with
      errno := if r.ret = 0 then w.errno else r.errno,
      tables := fun o k2 =>
        if target = some o ∧ k2 = key ∧ r.ret = 0 then some val else w.tables o k2,
      map_calls := w.map_calls ++ [⟨target, key, val, r.ret⟩] })

/-- The call `system(cmd)`. -/
def system (w : World) (cmd : CStr) : Int × World :=
  (w.r_system w.tc_cmds.length cmd, { w with tc_cmds := w.tc_cmds ++ [cmd] })

/-! ## The functions of the file -/

/-- The function `program_pin_name`: a copy of the section name in which the loop
`while ((p = strchr(p, '/'))) *p = '_';` has overwritten every `'/'`. -/
def program_pin_name : CStr → CStr
  | [] => []
  | c :: rest => if c = '/' then '_' :: program_pin_name rest else c :: program_pin_name rest

/-- The function `open_obj_by_name`. -/
def open_obj_by_name (k : BpfDefs) (w : World) (pipeline_id : Int) (prog : CStr) : Int × World :=
  let pinned_file := snprintf256 (pin_path_text k pipeline_id prog)
  bpf_obj_get w pinned_file

/-- The function `xdp_attach_prog_to_port`; the result is the return value, `*fd`
as `open_obj_by_name` set it, and the world. -/
def xdp_attach_prog_to_port (k : BpfDefs) (w : World) (pipeline_id : Int) (ifindex : Int)
    (prog : CStr) : Int × Int × World :=
  let (fd, w) := open_obj_by_name k w pipeline_id prog
  if fd < 0 then (w.errno, fd, w)
  else
    let (ret, w) := bpf_set_link_xdp_fd w ifindex fd XDP_FLAGS_DRV_MODE
    if ret ≠ -EOPNOTSUPP then
      if ret < 0 then (-ret, fd, close_object_fd w fd)
      else (NO_ERROR, fd, w)
    else
      let w := fprintf_stderr w LogMsg.native_unsupported
      let (ret, w) := bpf_set_link_xdp_fd w ifindex fd XDP_FLAGS_SKB_MODE
      if ret < 0 then (-ret, fd, close_object_fd w fd)
      else (NO_ERROR, fd, w)

/-- The function `update_prog_devmap`.  `%` on `int`s truncates towards zero
(`Int.tmod`); for a divisor 0, where C defines no result, `Int.tmod` returns the
dividend. -/
def update_prog_devmap (w : World) (devmap : psabpf_bpf_map_descriptor_t) (ifindex : Int)
    (intf : CStr) (egress_prog_fd : Int) : Int × World :=
  let devmap_val : bpf_devmap_val := ⟨ifindex, -1⟩
  let devmap_val : bpf_devmap_val :=
    if egress_prog_fd ≥ 0 then { devmap_val with bpf_prog_fd := egress_prog_fd } else devmap_val
  let w :=
    if ifindex > toInt32 devmap.max_entries then
      fprintf_stderr w (LogMsg.devmap_modulo ifindex intf devmap.max_entries)
    else w
  let index := Int.tmod ifindex (toInt32 devmap.max_entries)
  let (ret, w) := bpf_map_update_elem w devmap.fd index (MapVal.devmap devmap_val)
  if ret ≠ 0 then (w.errno, w) else (NO_ERROR, w)

/-- Modelled from the spec: `build_ebpf_map_path` of `common.h`, which writes the path of
the pipeline's tables, `<mount>/<prefix><pipeline_id>/maps`, into a 256-byte buffer. -/
def build_ebpf_map_path (k : BpfDefs) (pipeline_id : Int) : CStr :=
  snprintf256 (pin_path_text k pipeline_id ['m', 'a', 'p', 's'])

/-- The three `sprintf` texts handed to `system` by both attach procedures. -/
def tc_qdisc_add_cmd (intf : CStr) : CStr :=
  "tc qdisc add dev ".toList ++ intf ++ " clsact".toList

/-- The text `"tc filter add dev %s ingress bpf da fd %s/%s%d/%s"`. -/
def tc_filter_ingress_cmd (k : BpfDefs) (pipeline_id : Int) (intf : CStr) : CStr :=
  "tc filter add dev ".toList ++ intf ++ " ingress bpf da fd ".toList
    ++ pin_path_text k pipeline_id k.TC_INGRESS_PROG

/-- The text `"tc filter add dev %s egress bpf da fd %s/%s%d/%s"`. -/
def tc_filter_egress_cmd (k : BpfDefs) (pipeline_id : Int) (intf : CStr) : CStr :=
  "tc filter add dev ".toList ++ intf ++ " egress bpf da fd ".toList
    ++ pin_path_text k pipeline_id k.TC_EGRESS_PROG

/-- The text `"tc qdisc del dev %s clsact"`. -/
def tc_qdisc_del_cmd (intf : CStr) : CStr :=
  "tc qdisc del dev ".toList ++ intf ++ " clsact".toList

/-- The three `system` calls that end `xdp_port_add` and `tc_port_add`; their exit
statuses are dropped. -/
def tc_attach (k : BpfDefs) (w : World) (pipeline_id : Int) (intf : CStr) : World :=
  let w := (system w (tc_qdisc_add_cmd intf)).2
  let w := (system w (tc_filter_ingress_cmd k pipeline_id intf)).2
  (system w (tc_filter_egress_cmd k pipeline_id intf)).2

/-- The function `xdp_port_add`. -/
def xdp_port_add (k : BpfDefs) (w : World) (pipeline_id : Int) (intf : CStr) : Int × World :=
  let base_map_path := build_ebpf_map_path k pipeline_id
  let ifindex := toInt32 (w.r_if_nametoindex intf)
  if ifindex = 0 then (EINVAL, w)
  else
    let (ret, ig_prog_fd, w) := xdp_attach_prog_to_port k w pipeline_id ifindex k.XDP_INGRESS_PROG
    if ret ≠ NO_ERROR then (ret, w)
    else
      let w := close_object_fd w ig_prog_fd
      let (eg_prog_fd, w) := open_obj_by_name k w pipeline_id k.XDP_EGRESS_PROG
      let (ret, devmap, w) := open_bpf_map w k.XDP_DEVMAP base_map_path
      if ret ≠ NO_ERROR then (ret, close_object_fd w eg_prog_fd)
      else
        let (ret, w) := update_prog_devmap w devmap ifindex intf eg_prog_fd
        let w := close_object_fd w eg_prog_fd
        let w := close_object_fd w devmap.fd
        if ret ≠ NO_ERROR then (ret, w)
        else
          let (eg_prog_fd, w) := open_obj_by_name k w pipeline_id k.XDP_EGRESS_PROG_OPTIMIZED
          if eg_prog_fd ≥ 0 then
            let (ret, jmpmap, w) := open_bpf_map w k.XDP_JUMP_TBL base_map_path
            if ret ≠ NO_ERROR then (ENOENT, close_object_fd w eg_prog_fd)
            else
              let index : Int := 0
              let (ret, w) := bpf_map_update_elem w jmpmap.fd index (MapVal.prog_fd eg_prog_fd)
              let w := close_object_fd w eg_prog_fd
              let w := close_object_fd w jmpmap.fd
              if ret ≠ 0 then (w.errno, w)
              else (0, tc_attach k w pipeline_id intf)
          else (0, tc_attach k w pipeline_id intf)

/-- The function `tc_port_add`. -/
def tc_port_add (k : BpfDefs) (w : World) (pipeline_id : Int) (intf : CStr) : Int × World :=
  let ifindex := toInt32 (w.r_if_nametoindex intf)
  if ifindex = 0 then (EINVAL, w)
  else
    let (ret, xdp_helper_fd, w) :=
      xdp_attach_prog_to_port k w pipeline_id ifindex k.XDP_HELPER_PROG
    if ret ≠ NO_ERROR then (ret, w)
    else
      let w := close_object_fd w xdp_helper_fd
      (0, tc_attach k w pipeline_id intf)

/-- The function `psabpf_pipeline_add_port`. -/
def psabpf_pipeline_add_port (k : BpfDefs) (w : World) (pipeline : psabpf_pipeline_t)
    (intf : CStr) : Int × World :=
  let pinned_file := snprintf256 (pin_path_text k pipeline.id k.XDP_HELPER_PROG)
  let isXDP : Bool := decide (w.r_access pinned_file ≠ 0)
  if isXDP then xdp_port_add k w pipeline.id intf else tc_port_add k w pipeline.id intf

/-- The function `psabpf_pipeline_del_port`. -/
def psabpf_pipeline_del_port (w : World) (_pipeline : psabpf_pipeline_t) (intf : CStr) :
    Int × World :=
  let ifindex := toInt32 (w.r_if_nametoindex intf)
  if ifindex = 0 then (EINVAL, w)
  else
    let (ret, w) := bpf_set_link_xdp_fd w ifindex (-1) 0
    if ret ≠ 0 then (ret, w)
    else
      let (ret, w) := system w (tc_qdisc_del_cmd intf)
      if ret ≠ 0 then (ret, w)
      else (0, w)

/-! ## Loading an artifact -/

/-- A program of a loaded object, with the answers libbpf and the kernel give for it. -/
structure bpf_program where
  section_name : CStr
  fd : Int
  /-- Return value of `bpf_prog_test_run` on the program. -/
  r_test_run : Int
  /-- Return value of `bpf_program__pin` on the program. -/
  r_pin : Int
deriving DecidableEq, Repr

/-- A table of a loaded object, with the answers libbpf gives for it. -/
structure bpf_map where
  name : CStr
  /-- Where the table is pinned when the object has been loaded, if anywhere. -/
  pin_path : Option CStr
  r_unpin : Int
  r_set_pin_path : Int
  r_pin : Int
deriving DecidableEq, Repr

/-- A loaded object: its programs and its tables, in the order libbpf iterates them. -/
structure bpf_object where
  programs : List bpf_program
  maps : List bpf_map
deriving DecidableEq, Repr

/-- The namespace and the rest of the state that `psabpf_pipeline_load` changes. -/
structure LoadState where
  /-- Paths at which a program or table is pinned. -/
  pinned : List CStr
  /-- Objects that `bpf_object__close` has closed. -/
  closed : List bpf_object
  stderr : List LogMsg
deriving DecidableEq, Repr

/-- The function `do_initialize_maps`: the return value of the test run. -/
def do_initialize_maps (prog : bpf_program) : Int := prog.r_test_run

/-- The call `bpf_program__pin(prog, path)`: a negative return value is a failure,
otherwise the program is pinned at the path. -/
def bpf_program__pin (s : LoadState) (prog : bpf_program) (path : CStr) : Int × LoadState :=
  if prog.r_pin < 0 then (prog.r_pin, s)
  else (prog.r_pin, { s with pinned := s.pinned ++ [path] })

/-- The call `bpf_map__is_pinned(map)`. -/
def bpf_map__is_pinned (map : bpf_map) : Bool := map.pin_path.isSome

/-- The call `bpf_map__unpin(map, NULL)`: on 0 the pin of the table is removed. -/
def bpf_map__unpin (s : LoadState) (map : bpf_map) : Int × LoadState :=
  match map.pin_path with
  | none => (map.r_unpin, s)
  | some path =>
    if map.r_unpin = 0 then (0, { s with pinned := s.pinned.filter (fun q => !decide (q = path)) })
    else (map.r_unpin, s)

/-- The call `bpf_map__set_pin_path(map, path)`. -/
def bpf_map__set_pin_path (map : bpf_map) (_path : CStr) : Int := map.r_set_pin_path

/-- The call `bpf_map__pin(map, path)`: on 0 the table is pinned at the path. -/
def bpf_map__pin (s : LoadState) (map : bpf_map) (path : CStr) : Int × LoadState :=
  if map.r_pin = 0 then (0, { s with pinned := s.pinned ++ [path] })
  else (map.r_pin, s)

/-- The call `bpf_object__close(obj)`: descriptors are released, pins stay. -/
def bpf_object__close (s : LoadState) (obj : bpf_object) : LoadState :=
  { s with closed := s.closed ++ [obj] }

/-- The test of the program loop for an initializer section. -/
def is_init_prog (k : BpfDefs) (pos : bpf_program) : Bool :=
  decide (pos.section_name = k.TC_INIT_PROG) || decide (pos.section_name = k.XDP_INIT_PROG)

/-- The path `"%s/%s%d/%s"` at which the program loop pins a program. -/
def program_pin_path (k : BpfDefs) (id : Int) (pos : bpf_program) : CStr :=
  snprintf256 (pin_path_text k id (program_pin_name pos.section_name))

/-- The path `"%s/%s%d/%s/%s"` at which the table loop pins a table. -/
def map_pin_path (k : BpfDefs) (id : Int) (map : bpf_map) : CStr :=
  snprintf256 (k.BPF_FS ++ ['/'] ++ k.PIPELINE_PREFIX ++ fmt_d id ++ ['/']
    ++ ['m', 'a', 'p', 's'] ++ ['/'] ++ map.name)

/-- The loop `bpf_object__for_each_program` of `psabpf_pipeline_load`, from the
programs still to visit and the current value of `ret`.  The result is whether
the loop ran to its end (`false`: it left through `goto err_close_obj`), the
value of `ret` and the state. -/
def load_programs (k : BpfDefs) (id : Int) :
    List bpf_program → Int → LoadState → Bool × Int × LoadState
  | [], ret, s => (true, ret, s)
  | pos :: rest, _, s =>
    if is_init_prog k pos then
      let ret := do_initialize_maps pos
      if ret ≠ 0 then (false, ret, s)
      else load_programs k id rest ret s
    else
      let pinned_file := program_pin_path k id pos
      let (ret, s) := bpf_program__pin s pos pinned_file
      if ret < 0 then (false, ret, s)
      else load_programs k id rest ret s

/-- The loop `bpf_object__for_each_map` of `psabpf_pipeline_load`.  The loop does
not assign `ret`; the result is whether it ran to its end and the state. -/
def load_maps (k : BpfDefs) (id : Int) : List bpf_map → LoadState → Bool × LoadState
  | [], s => (true, s)
  | map :: rest, s =>
    let (unpin_failed, s) :=
      if bpf_map__is_pinned map then
        let (r, s) := bpf_map__unpin s map
        (decide (r ≠ 0), s)
      else (false, s)
    if unpin_failed then (false, s)
    else
      let pinned_file := map_pin_path k id map
      if bpf_map__set_pin_path map pinned_file ≠ 0 then (false, s)
      else
        let (r, s) := bpf_map__pin s map pinned_file
        if r ≠ 0 then (false, s)
        else load_maps k id rest s

/-- The function `psabpf_pipeline_load`; `r_prog_load` is the answer of
`bpf_prog_load`, a return value and the object (`none` for `NULL`). -/
def psabpf_pipeline_load (k : BpfDefs) (r_prog_load : CStr → Int × Option bpf_object)
    (s : LoadState) (pipeline : psabpf_pipeline_t) : Int × LoadState :=
  let file := pipeline.obj
  match r_prog_load file with
  | (ret, none) => (-1, { s with stderr := s.stderr ++ [LogMsg.cannot_load ret] })
  | (ret, some obj) =>
    if ret < 0 then (-1, { s with stderr := s.stderr ++ [LogMsg.cannot_load ret] })
    else
      let (completed, ret, s) := load_programs k pipeline.id obj.programs ret s
      if !completed then (ret, bpf_object__close s obj)
      else
        let (_, s) := load_maps k pipeline.id obj.maps s
        (ret, bpf_object__close s obj)

/-! ## A concrete setting for the examples -/

/-- Sample values for the constants of `bpf_defs.h`. -/
def defs0 : BpfDefs where
  BPF_FS := "/sys/fs/bpf".toList
  PIPELINE_PREFIX := "pipeline".toList
  TC_INIT_PROG := "classifier/map-initializer".toList
  XDP_INIT_PROG := "xdp/map-initializer".toList
  TC_INGRESS_PROG := "classifier_tc-ingress".toList
  TC_EGRESS_PROG := "classifier_tc-egress".toList
  XDP_HELPER_PROG := "xdp_xdp-ingress".toList
  XDP_INGRESS_PROG := "xdp_ingress_xdp-ingress".toList
  XDP_EGRESS_PROG := "xdp_devmap_xdp-egress".toList
  XDP_EGRESS_PROG_OPTIMIZED := "xdp_xdp-egress-optimized".toList
  XDP_DEVMAP := "tx_port".toList
  XDP_JUMP_TBL := "egress_progs_table".toList

/-- The path of a program of pipeline 7 under `defs0`. -/
def path7 (name : CStr) : CStr := snprintf256 (pin_path_text defs0 7 name)

/-- The redirect table of pipeline 7 as a kernel object. -/
def devmap7 : Obj := Obj.map (build_ebpf_map_path defs0 7) defs0.XDP_DEVMAP

/-- A world for pipeline 7: the interface `veth0` has index 5, the namespace holds
the ingress program (descriptor 3) and the egress program (descriptor 4), no
optimized egress program and no helper, and a redirect table of capacity 64
(descriptor 5); every kernel call and every command succeeds. -/
def world0 : World where
  r_if_nametoindex := fun n => if n = "veth0".toList then 5 else 0
  r_access := fun _ => -1
  r_obj_get := fun p =>
    if p = path7 defs0.XDP_INGRESS_PROG then ⟨3, 0⟩
    else if p = path7 defs0.XDP_EGRESS_PROG then ⟨4, 0⟩
    else ⟨-1, ENOENT⟩
  r_open_bpf_map := fun name _ =>
    if name = defs0.XDP_DEVMAP then (NO_ERROR, ⟨5, 64⟩) else (ENOENT, ⟨-1, 0⟩)
  r_set_link_xdp := fun _ _ _ => 0
  r_map_update := fun _ _ _ => ⟨0, 0⟩
  r_system := fun _ _ => 0
  errno := 0
  fds := []
  tables := fun _ _ => none
  xdp_calls := []
  map_calls := []
  tc_cmds := []
  stderr := []

/-- The pipeline 7. -/
def pipeline7 : psabpf_pipeline_t := ⟨7, "out.o".toList⟩

/-- A world like `world0` in which the driver refuses the native mode. -/
def world_fallback : World :=
  { world0 with
    r_set_link_xdp := fun _ _ flags => if flags = XDP_FLAGS_DRV_MODE then -EOPNOTSUPP else 0 }

/-- A world like `world0` in which descriptor 5 is open and refers to the redirect
table of pipeline 7. -/
def world_devmap_open : World :=
  { world0 with fds := [(5, devmap7)] }

/-- A world like `world0` whose namespace also holds the optimized egress program
(descriptor 6); it holds no indirection table. -/
def world_no_jump_table : World :=
  { world0 with
    r_obj_get := fun p =>
      if p = path7 defs0.XDP_INGRESS_PROG then ⟨3, 0⟩
      else if p = path7 defs0.XDP_EGRESS_PROG then ⟨4, 0⟩
      else if p = path7 defs0.XDP_EGRESS_PROG_OPTIMIZED then ⟨6, 0⟩
      else ⟨-1, ENOENT⟩ }

/-- A world like `world0` in which every command exits with status 1 (`system`
returns 256). -/
def world_tc_fails : World :=
  { world0 with r_system := fun _ _ => 256 }

/-- The empty namespace. -/
def state0 : LoadState := ⟨[], [], []⟩

/-- An artifact with a dataplane program that pins, then the initializer of the
accelerated mode, whose test run fails, and one table. -/
def obj_init_fails : bpf_object where
  programs :=
    [⟨"xdp_ingress/xdp-ingress".toList, 3, 0, 0⟩, ⟨"xdp/map-initializer".toList, 4, -1, 0⟩]
  maps := [⟨"tx_port".toList, none, 0, 0, 0⟩]

/-- An artifact with a dataplane program that pins, an initializer that succeeds,
and one table that cannot be pinned. -/
def obj_map_pin_fails : bpf_object where
  programs :=
    [⟨"xdp_ingress/xdp-ingress".toList, 3, 0, 0⟩, ⟨"xdp/map-initializer".toList, 4, 0, 0⟩]
  maps := [⟨"tx_port".toList, none, 0, 0, -1⟩]

/-- An answer of `bpf_prog_load` that loads `obj` from every file. -/
def prog_load_ok (obj : bpf_object) : CStr → Int × Option bpf_object :=
  fun _ => (0, some obj)

/-- Whether the program loop leaves through `goto err_close_obj` at a program: an
initializer whose test run is not 0, or another program whose pin is negative. -/
def prog_fails (k : BpfDefs) (pos : bpf_program) : Bool :=
  if is_init_prog k pos then decide (pos.r_test_run ≠ 0) else decide (pos.r_pin < 0)

/-- The paths of the programs that are not initializers and come before the first
program at which the loop leaves. -/
def pinned_before_failure (k : BpfDefs) (id : Int) (progs : List bpf_program) : List CStr :=
  ((progs.takeWhile (fun pos => !prog_fails k pos)).filter (fun pos => !is_init_prog k pos)).map
    (program_pin_path k id)

/-- Two characters that `program_pin_name` does not tell apart: equal, or one is
`'/'` and the other `'_'`. -/
def same_flat (a b : Char) : Prop :=
  a = b ∨ (a = '/' ∧ b = '_') ∨ (a = '_' ∧ b = '/')

/-! ## Frame lemmas -/

/-- The cast to `int` keeps a value below `2 ^ 31`. -/
theorem toInt32_of_lt (n : Nat) (h : n < 2 ^ 31) : toInt32 n = (n : Int) := by
  have h1 : n % 2 ^ 32 = n := Nat.mod_eq_of_lt (by omega)
  unfold toInt32
  rw [h1, if_pos h]

/-- The descriptor opened last is found first. -/
theorem fd_lookup_head (fds : List (Int × Obj)) (fd : Int) (o : Obj) :
    fd_lookup (fds_add fds false fd o) fd = some o := by
  simp [fd_lookup, fds_add]

/-- The effect of the three commands of `tc_attach`. -/
theorem tc_attach_eq (k : BpfDefs) (w : World) (id : Int) (intf : CStr) :
    tc_attach k w id intf
      = { w with tc_cmds := w.tc_cmds ++ [tc_qdisc_add_cmd intf] ++
            [tc_filter_ingress_cmd k id intf] ++ [tc_filter_egress_cmd k id intf] } := by
  simp [tc_attach, system]

/-- What `xdp_attach_prog_to_port` may change: `errno`, the open descriptors, the
record of hook calls and `stderr`. -/
theorem xdp_attach_frame (k : BpfDefs) (w : World) (id ifindex : Int) (prog : CStr) :
    ∃ e f x s, (xdp_attach_prog_to_port k w id ifindex prog).2.2
      = { w with errno := e, fds := f, xdp_calls := x, stderr := s } := by
  unfold xdp_attach_prog_to_port open_obj_by_name bpf_obj_get bpf_set_link_xdp_fd
    close_object_fd fprintf_stderr
  simp only []
  split_ifs <;> exact ⟨_, _, _, _, rfl⟩

/-- The function `update_prog_devmap` as a pair of a return value and a world. -/
theorem update_prog_devmap_eq (w : World) (devmap : psabpf_bpf_map_descriptor_t)
    (ifindex : Int) (intf : CStr) (eg : Int) :
    update_prog_devmap w devmap ifindex intf eg
      = (if (map_update_answer w (fd_lookup w.fds devmap.fd)
              (Int.tmod ifindex (toInt32 devmap.max_entries))
              (MapVal.devmap ⟨ifindex, if 0 ≤ eg then eg else -1⟩)).ret = 0
          then NO_ERROR
          else (map_update_answer w (fd_lookup w.fds devmap.fd)
              (Int.tmod ifindex (toInt32 devmap.max_entries))
              (MapVal.devmap ⟨ifindex, if 0 ≤ eg then eg else -1⟩)).errno,
         (bpf_map_update_elem
            { w with stderr :=
                if ifindex > toInt32 devmap.max_entries then
                  w.stderr ++ [LogMsg.devmap_modulo ifindex intf devmap.max_entries]
                else w.stderr }
            devmap.fd (Int.tmod ifindex (toInt32 devmap.max_entries))
            (MapVal.devmap ⟨ifindex, if 0 ≤ eg then eg else -1⟩)).2) := by
  unfold update_prog_devmap fprintf_stderr bpf_map_update_elem map_update_answer
  simp only []
  split_ifs <;> simp_all

/-- A descriptor that has been filtered out of the open descriptors refers to nothing. -/
theorem fd_lookup_filter_self (fds : List (Int × Obj)) (fd : Int) :
    fd_lookup (fds.filter (fun e => !decide (e.1 = fd))) fd = none := by
  induction fds with
  | nil => simp [fd_lookup]
  | cons e rest ih =>
    by_cases h : e.1 = fd
    · simp [List.filter_cons, h, ih]
    · simp [List.filter_cons, h, fd_lookup, ih]

/-- A descriptor that has been closed refers to nothing. -/
theorem fd_lookup_fds_close (fds : List (Int × Obj)) (fd : Int) (h : 0 ≤ fd) :
    fd_lookup (fds_close fds fd) fd = none := by
  simp [fds_close, h, fd_lookup_filter_self]

/-! ## Attach with fallback -/

/-- Claim C9: for a program that opens (descriptor `fd ≥ 0`) and kernel answers `r1`
(driver-native attach) and `r2` (software-emulated attach), `xdp_attach_prog_to_port`
makes the driver-native attempt, makes the software-emulated attempt exactly when
`r1 = -EOPNOTSUPP`, and makes no other attempt; it returns `NO_ERROR` exactly when
`0 ≤ r1`, or `r1 = -EOPNOTSUPP` and `0 ≤ r2`; otherwise it returns the positive code
`-r` of the failing attempt and the opened descriptor has been released. -/
theorem xdp_attach_prog_to_port_fallback (k : BpfDefs) (w : World) (id ifindex : Int)
    (prog : CStr) (fd r1 r2 : Int)
    (hfd : (w.r_obj_get (snprintf256 (pin_path_text k id prog))).ret = fd)
    (hopen : 0 ≤ fd)
    (h1 : w.r_set_link_xdp ifindex fd XDP_FLAGS_DRV_MODE = r1)
    (h2 : w.r_set_link_xdp ifindex fd XDP_FLAGS_SKB_MODE = r2) :
    ((xdp_attach_prog_to_port k w id ifindex prog).2.2.xdp_calls
        = w.xdp_calls ++
            (if r1 = -EOPNOTSUPP then
              [⟨ifindex, fd, XDP_FLAGS_DRV_MODE, r1⟩, ⟨ifindex, fd, XDP_FLAGS_SKB_MODE, r2⟩]
             else [⟨ifindex, fd, XDP_FLAGS_DRV_MODE, r1⟩]))
    ∧ ((xdp_attach_prog_to_port k w id ifindex prog).2.2.xdp_calls.length
        ≤ w.xdp_calls.length + 2)
    ∧ ((xdp_attach_prog_to_port k w id ifindex prog).1 = NO_ERROR
        ↔ (0 ≤ r1 ∨ (r1 = -EOPNOTSUPP ∧ 0 ≤ r2)))
    ∧ ((xdp_attach_prog_to_port k w id ifindex prog).1 ≠ NO_ERROR →
        0 < (xdp_attach_prog_to_port k w id ifindex prog).1
        ∧ (xdp_attach_prog_to_port k w id ifindex prog).1
            = (if r1 = -EOPNOTSUPP then -r2 else -r1)
        ∧ fd_lookup (xdp_attach_prog_to_port k w id ifindex prog).2.2.fds fd = none) := by
  have hlt : ¬ fd < 0 := not_lt.mpr hopen
  have hE : (-EOPNOTSUPP : Int) < 0 := by decide
  by_cases hr1 : r1 = -EOPNOTSUPP
  · by_cases hr2 : r2 < 0
    · have hout : xdp_attach_prog_to_port k w id ifindex prog
          = (-r2, fd, close_object_fd
              (bpf_set_link_xdp_fd
                (fprintf_stderr
                  (bpf_set_link_xdp_fd (bpf_obj_get w (snprintf256 (pin_path_text k id prog))).2
                    ifindex fd XDP_FLAGS_DRV_MODE).2
                  LogMsg.native_unsupported)
                ifindex fd XDP_FLAGS_SKB_MODE).2 fd) := by
        simp [xdp_attach_prog_to_port, open_obj_by_name, bpf_obj_get, bpf_set_link_xdp_fd,
          fprintf_stderr, hfd, hlt, h1, h2, hr1, hr2]
      rw [hout]
      refine ⟨?_, ?_, ?_, ?_⟩
      · simp [close_object_fd, bpf_set_link_xdp_fd, fprintf_stderr, bpf_obj_get, hfd, hlt,
          hopen, h1, h2, hr1]
      · simp [close_object_fd, bpf_set_link_xdp_fd, fprintf_stderr, bpf_obj_get, hfd, hlt,
          hopen]
      · simp only [NO_ERROR]
        constructor
        · intro h; omega
        · intro h; rcases h with h | h <;> omega
      · intro _
        refine ⟨by simp only []; omega, by simp [hr1], ?_⟩
        simp [close_object_fd, hopen, fd_lookup_fds_close]
    · have hout : xdp_attach_prog_to_port k w id ifindex prog
          = (NO_ERROR, fd,
              (bpf_set_link_xdp_fd
                (fprintf_stderr
                  (bpf_set_link_xdp_fd (bpf_obj_get w (snprintf256 (pin_path_text k id prog))).2
                    ifindex fd XDP_FLAGS_DRV_MODE).2
                  LogMsg.native_unsupported)
                ifindex fd XDP_FLAGS_SKB_MODE).2) := by
        simp [xdp_attach_prog_to_port, open_obj_by_name, bpf_obj_get, bpf_set_link_xdp_fd,
          fprintf_stderr, hfd, hlt, h1, h2, hr1, hr2]
      rw [hout]
      refine ⟨?_, ?_, ?_, ?_⟩
      · simp [bpf_set_link_xdp_fd, fprintf_stderr, bpf_obj_get, hfd, hlt, h1, h2, hr1]
      · simp [bpf_set_link_xdp_fd, fprintf_stderr, bpf_obj_get, hfd, hlt]
      · simp only [true_iff]
        right; exact ⟨hr1, not_lt.mp hr2⟩
      · intro h; exact absurd rfl h
  · by_cases hr1n : r1 < 0
    · have hout : xdp_attach_prog_to_port k w id ifindex prog
          = (-r1, fd, close_object_fd
              (bpf_set_link_xdp_fd (bpf_obj_get w (snprintf256 (pin_path_text k id prog))).2
                ifindex fd XDP_FLAGS_DRV_MODE).2 fd) := by
        simp [xdp_attach_prog_to_port, open_obj_by_name, bpf_obj_get, bpf_set_link_xdp_fd,
          hfd, hlt, h1, hr1, hr1n]
      rw [hout]
      refine ⟨?_, ?_, ?_, ?_⟩
      · simp [close_object_fd, bpf_set_link_xdp_fd, bpf_obj_get, hfd, hlt, hopen, h1, hr1]
      · simp [close_object_fd, bpf_set_link_xdp_fd, bpf_obj_get, hfd, hlt, hopen]
      · simp only [NO_ERROR]
        constructor
        · intro h; omega
        · intro h; rcases h with h | h
          · omega
          · exact absurd h.1 hr1
      · intro _
        refine ⟨by simp only []; omega, by simp [hr1], ?_⟩
        simp [close_object_fd, hopen, fd_lookup_fds_close]
    · have hout : xdp_attach_prog_to_port k w id ifindex prog
          = (NO_ERROR, fd,
              (bpf_set_link_xdp_fd (bpf_obj_get w (snprintf256 (pin_path_text k id prog))).2
                ifindex fd XDP_FLAGS_DRV_MODE).2) := by
        simp [xdp_attach_prog_to_port, open_obj_by_name, bpf_obj_get, bpf_set_link_xdp_fd,
          hfd, hlt, h1, hr1, hr1n]
      rw [hout]
      refine ⟨?_, ?_, ?_, ?_⟩
      · simp [bpf_set_link_xdp_fd, bpf_obj_get, hfd, hlt, h1, hr1]
      · simp [bpf_set_link_xdp_fd, bpf_obj_get, hfd, hlt]
      · simp only [true_iff]
        left; exact not_lt.mp hr1n
      · intro h; exact absurd rfl h

/-- Witness for C9: in `world_fallback` the ingress program opens as descriptor 3, the
native attempt answers `-EOPNOTSUPP`, the software-emulated attempt answers 0, and
the call returns `NO_ERROR`. -/
theorem xdp_attach_prog_to_port_fallback_witness :
    (xdp_attach_prog_to_port defs0 world_fallback 7 5 defs0.XDP_INGRESS_PROG).2.2.xdp_calls
        = [⟨5, 3, XDP_FLAGS_DRV_MODE, -EOPNOTSUPP⟩, ⟨5, 3, XDP_FLAGS_SKB_MODE, 0⟩]
    ∧ ((xdp_attach_prog_to_port defs0 world_fallback 7 5 defs0.XDP_INGRESS_PROG).1 = NO_ERROR
        ↔ (0 ≤ -EOPNOTSUPP ∨ (-EOPNOTSUPP = -EOPNOTSUPP ∧ (0 : Int) ≤ 0))) :=
  have h := xdp_attach_prog_to_port_fallback defs0 world_fallback 7 5 defs0.XDP_INGRESS_PROG
    3 (-EOPNOTSUPP) 0 (by decide) (by decide) (by decide) (by decide)
  ⟨h.1, h.2.2.1⟩

/-! ## Mode selection and unknown interfaces -/

/-- The accelerated branch of `psabpf_pipeline_add_port`. -/
theorem psabpf_pipeline_add_port_of_absent (k : BpfDefs) (w : World)
    (pipeline : psabpf_pipeline_t) (intf : CStr)
    (h : w.r_access (snprintf256 (pin_path_text k pipeline.id k.XDP_HELPER_PROG)) ≠ 0) :
    psabpf_pipeline_add_port k w pipeline intf = xdp_port_add k w pipeline.id intf := by
  simp [psabpf_pipeline_add_port, h]

/-- Claim C8: `psabpf_pipeline_add_port` selects the mode from `access` on the path of
the helper program alone: when the path is absent (`access` is not 0) the result
and the resulting world are those of `xdp_port_add`, when it is present those of
`tc_port_add`. -/
theorem psabpf_pipeline_add_port_mode (k : BpfDefs) (w : World) (pipeline : psabpf_pipeline_t)
    (intf : CStr) :
    (w.r_access (snprintf256 (pin_path_text k pipeline.id k.XDP_HELPER_PROG)) ≠ 0 →
      psabpf_pipeline_add_port k w pipeline intf = xdp_port_add k w pipeline.id intf)
    ∧ (w.r_access (snprintf256 (pin_path_text k pipeline.id k.XDP_HELPER_PROG)) = 0 →
      psabpf_pipeline_add_port k w pipeline intf = tc_port_add k w pipeline.id intf) := by
  unfold psabpf_pipeline_add_port
  constructor
  · intro h
    simp [h]
  · intro h
    simp [h]

/-- Witness for C8: in `world0` the helper path is absent and the call is `xdp_port_add`. -/
theorem psabpf_pipeline_add_port_mode_witness :
    psabpf_pipeline_add_port defs0 world0 pipeline7 "veth0".toList
      = xdp_port_add defs0 world0 7 "veth0".toList :=
  (psabpf_pipeline_add_port_mode defs0 world0 pipeline7 "veth0".toList).1 (by decide)

/-- Claim C2: for an interface name that `if_nametoindex` does not resolve (it returns
0), `psabpf_pipeline_add_port` returns `EINVAL` and leaves the world as it was (no
hook call, no table write, no command), in the accelerated mode (`xdp_port_add`)
and in the software-only mode (`tc_port_add`) alike. -/
theorem psabpf_pipeline_add_port_invalid_port (k : BpfDefs) (w : World)
    (pipeline : psabpf_pipeline_t) (intf : CStr) (h : w.r_if_nametoindex intf = 0) :
    psabpf_pipeline_add_port k w pipeline intf = (EINVAL, w)
    ∧ xdp_port_add k w pipeline.id intf = (EINVAL, w)
    ∧ tc_port_add k w pipeline.id intf = (EINVAL, w) := by
  have hx : xdp_port_add k w pipeline.id intf = (EINVAL, w) := by
    simp [xdp_port_add, h, toInt32]
  have ht : tc_port_add k w pipeline.id intf = (EINVAL, w) := by
    simp [tc_port_add, h, toInt32]
  refine ⟨?_, hx, ht⟩
  unfold psabpf_pipeline_add_port
  simp only []
  split_ifs
  · exact hx
  · exact ht

/-- Witness for C2: `world0` has no interface `eth9`. -/
theorem psabpf_pipeline_add_port_invalid_port_witness :
    world0.r_if_nametoindex "eth9".toList = 0
    ∧ psabpf_pipeline_add_port defs0 world0 pipeline7 "eth9".toList = (EINVAL, world0) :=
  ⟨by decide,
   (psabpf_pipeline_add_port_invalid_port defs0 world0 pipeline7 "eth9".toList (by decide)).1⟩

/-! ## The redirect table -/

/-- Claim C1: when `xdp_port_add` reaches the redirect-table write (the interface index
`i` is positive, the ingress attach and the table open succeeded) and the capacity
`c` of the table is positive, exactly one update of the call targets the redirect
table: at key `i mod c`, with destination `i` and, as program reference, the
descriptor of the egress program when that program could be opened and `-1`
otherwise (so the reference is not `-1` iff the egress program is there).  The
table changes at that key only, and when there is no optimized egress program no
other table is updated.  Here `i` and `c` are the `int`s of the code,
`(int) if_nametoindex(intf)` and `(int) devmap->max_entries`; `c` is the capacity
itself when that is below `2 ^ 31`. -/
theorem xdp_port_add_redirect_entry (k : BpfDefs) (w : World) (id : Int) (intf : CStr)
    (i c eg : Int)
    (hi : toInt32 (w.r_if_nametoindex intf) = i) (hipos : 0 < i)
    (hattach : (xdp_attach_prog_to_port k w id i k.XDP_INGRESS_PROG).1 = NO_ERROR)
    (hopen : (w.r_open_bpf_map k.XDP_DEVMAP (build_ebpf_map_path k id)).1 = NO_ERROR)
    (hc : toInt32 (w.r_open_bpf_map k.XDP_DEVMAP (build_ebpf_map_path k id)).2.max_entries = c)
    (hcpos : 0 < c)
    (heg : (w.r_obj_get (snprintf256 (pin_path_text k id k.XDP_EGRESS_PROG))).ret = eg)
    (hnames : k.XDP_DEVMAP ≠ k.XDP_JUMP_TBL) :
    ((w.r_open_bpf_map k.XDP_DEVMAP (build_ebpf_map_path k id)).2.max_entries < 2 ^ 31 →
        c = ((w.r_open_bpf_map k.XDP_DEVMAP (build_ebpf_map_path k id)).2.max_entries : Int))
    ∧ (∃ rest : List MapCall,
        (xdp_port_add k w id intf).2.map_calls
          = w.map_calls ++
              (⟨some (Obj.map (build_ebpf_map_path k id) k.XDP_DEVMAP), i % c,
                MapVal.devmap ⟨i, if 0 ≤ eg then eg else -1⟩,
                (w.r_map_update (Obj.map (build_ebpf_map_path k id) k.XDP_DEVMAP) (i % c)
                  (MapVal.devmap ⟨i, if 0 ≤ eg then eg else -1⟩)).ret⟩ :: rest)
        ∧ (∀ m ∈ rest, m.target ≠ some (Obj.map (build_ebpf_map_path k id) k.XDP_DEVMAP))
        ∧ ((w.r_obj_get (snprintf256 (pin_path_text k id k.XDP_EGRESS_PROG_OPTIMIZED))).ret < 0
            → rest = []))
    ∧ (∀ key : Int,
        (xdp_port_add k w id intf).2.tables (Obj.map (build_ebpf_map_path k id) k.XDP_DEVMAP) key
          = if key = i % c ∧
                (w.r_map_update (Obj.map (build_ebpf_map_path k id) k.XDP_DEVMAP) (i % c)
                  (MapVal.devmap ⟨i, if 0 ≤ eg then eg else -1⟩)).ret = 0
            then some (MapVal.devmap ⟨i, if 0 ≤ eg then eg else -1⟩)
            else w.tables (Obj.map (build_ebpf_map_path k id) k.XDP_DEVMAP) key)
    ∧ ((if 0 ≤ eg then eg else -1) ≠ -1 ↔ 0 ≤ eg) := by
  have hcap : (w.r_open_bpf_map k.XDP_DEVMAP (build_ebpf_map_path k id)).2.max_entries < 2 ^ 31 →
      c = ((w.r_open_bpf_map k.XDP_DEVMAP (build_ebpf_map_path k id)).2.max_entries : Int) := by
    intro hlt
    rw [← hc]
    exact toInt32_of_lt _ hlt
  refine ⟨hcap, ?_⟩
  obtain ⟨e, f, x, s, hw1⟩ := xdp_attach_frame k w id i k.XDP_INGRESS_PROG
  generalize hA : xdp_attach_prog_to_port k w id i k.XDP_INGRESS_PROG = out at hattach hw1
  obtain ⟨ret, fd, w1⟩ := out
  simp only at hattach hw1
  subst hattach hw1
  have hmod : Int.tmod i c = i % c := Int.tmod_eq_emod hipos.le hcpos.le
  have hine : ¬ i = 0 := hipos.ne'
  generalize hd : w.r_open_bpf_map k.XDP_DEVMAP (build_ebpf_map_path k id) = d at hopen hc
  obtain ⟨dret, dfd, dmax⟩ := d
  simp only at hopen hc
  subst hopen
  generalize hegr : w.r_obj_get (snprintf256 (pin_path_text k id k.XDP_EGRESS_PROG)) = egr at heg
  obtain ⟨egret, egerr⟩ := egr
  simp only at heg
  subst heg
  generalize hU : w.r_map_update (Obj.map (build_ebpf_map_path k id) k.XDP_DEVMAP) (i % c)
      (MapVal.devmap ⟨i, if 0 ≤ egret then egret else -1⟩) = U
  obtain ⟨uret, uerr⟩ := U
  generalize hopt : w.r_obj_get (snprintf256 (pin_path_text k id k.XDP_EGRESS_PROG_OPTIMIZED))
      = opt
  obtain ⟨optret, opterr⟩ := opt
  generalize hj : w.r_open_bpf_map k.XDP_JUMP_TBL (build_ebpf_map_path k id) = j
  obtain ⟨jret, jfd, jmax⟩ := j
  have hthird : (if 0 ≤ egret then egret else -1) ≠ -1 ↔ 0 ≤ egret := by
    split_ifs with h
    · simp only [h, iff_true]; omega
    · simp [h]
  have hobj : Obj.map (build_ebpf_map_path k id) k.XDP_JUMP_TBL
      ≠ Obj.map (build_ebpf_map_path k id) k.XDP_DEVMAP := by
    intro h
    injection h with _ h2
    exact hnames h2.symm
  simp only [xdp_port_add, hi, hine, hA, open_obj_by_name, bpf_obj_get, close_object_fd,
    update_prog_devmap_eq, bpf_map_update_elem, tc_attach_eq, if_false, ne_eq,
    not_true_eq_false, open_bpf_map, hd, hegr, hopt, hj, if_true, fd_lookup_head,
    map_update_answer, hc, hmod, hU, decide_False, decide_True]
  have hobj2 : ¬ (some (Obj.map (build_ebpf_map_path k id) k.XDP_JUMP_TBL)
      = some (Obj.map (build_ebpf_map_path k id) k.XDP_DEVMAP)) := by
    intro h; exact hobj (Option.some.inj h)
  generalize hR : (if uret = 0 then NO_ERROR else uerr) = R
  by_cases hok : R = NO_ERROR
  · by_cases ho : 0 ≤ optret
    · by_cases hjr : jret = NO_ERROR
      · subst hjr
        simp only [hok, ho, if_true, if_false, not_true_eq_false, ge_iff_le, decide_False,
          decide_True, fd_lookup_head]
        generalize hU2 : w.r_map_update (Obj.map (build_ebpf_map_path k id) k.XDP_JUMP_TBL) 0
          (MapVal.prog_fd optret) = U2
        obtain ⟨u2ret, u2err⟩ := U2
        by_cases hu2 : u2ret = 0
        · simp only [hu2, if_true, if_false, not_true_eq_false]
          refine ⟨⟨[⟨some (Obj.map (build_ebpf_map_path k id) k.XDP_JUMP_TBL), 0,
            MapVal.prog_fd optret, 0⟩], by simp, ?_, ?_⟩, ?_, hthird⟩
          · intro m hm
            simp only [List.mem_singleton] at hm
            subst hm
            exact hobj2
          · intro h; omega
          · intro key
            simp [hobj2]
        · simp only [hu2, if_true, if_false, not_true_eq_false, not_false_eq_true]
          refine ⟨⟨[⟨some (Obj.map (build_ebpf_map_path k id) k.XDP_JUMP_TBL), 0,
            MapVal.prog_fd optret, u2ret⟩], by simp, ?_, ?_⟩, ?_, hthird⟩
          · intro m hm
            simp only [List.mem_singleton] at hm
            subst hm
            exact hobj2
          · intro h; omega
          · intro key
            simp [hobj2]
      · simp only [hok, ho, hjr, if_true, if_false, not_true_eq_false, ge_iff_le,
          not_false_eq_true]
        refine ⟨⟨[], by simp, by simp, by simp⟩, ?_, hthird⟩
        intro key
        simp
    · simp only [hok, ho, if_true, if_false, not_true_eq_false, ge_iff_le]
      refine ⟨⟨[], by simp, by simp, by simp⟩, ?_, hthird⟩
      intro key
      simp
  · simp only [hok, if_true, if_false, not_true_eq_false, not_false_eq_true]
    refine ⟨⟨[], by simp, by simp, by simp⟩, ?_, hthird⟩
    intro key
    simp

/-- Witness for C1: pipeline 7 on `veth0` (index 5) with capacity 64 and the egress
program open as descriptor 4: slot 5 of the redirect table holds destination 5 and
program reference 4, and the call made no other table update. -/
theorem xdp_port_add_redirect_entry_witness :
    (xdp_port_add defs0 world0 7 "veth0".toList).2.tables devmap7 5
        = some (MapVal.devmap ⟨5, 4⟩)
    ∧ (xdp_port_add defs0 world0 7 "veth0".toList).2.map_calls
        = [⟨some devmap7, 5, MapVal.devmap ⟨5, 4⟩, 0⟩] := by
  have h := xdp_port_add_redirect_entry defs0 world0 7 "veth0".toList 5 64 4
    (by decide) (by decide) (by decide) (by decide) (by decide) (by decide) (by decide)
    (by decide)
  obtain ⟨_, ⟨rest, hcalls, _, hrest⟩, htab, _⟩ := h
  have hr : rest = [] := hrest (by decide)
  subst hr
  refine ⟨?_, ?_⟩
  · have h5 := htab 5
    simpa [devmap7, world0] using h5
  · simpa [devmap7, world0] using hcalls

/-- Claim C10 fails as stated: at `i = c = 64`, `update_prog_devmap` on interface index 64
and a redirect table of capacity 64 returns `NO_ERROR` and writes slot 0, which is
not the interface index, and prints no warning. -/
theorem update_prog_devmap_no_warning_at_capacity :
    (update_prog_devmap world_devmap_open ⟨5, 64⟩ 64 "veth0".toList 4).1 = NO_ERROR
    ∧ (update_prog_devmap world_devmap_open ⟨5, 64⟩ 64 "veth0".toList 4).2.map_calls
        = [⟨some devmap7, 64 % 64, MapVal.devmap ⟨64, 4⟩, 0⟩]
    ∧ (64 : Int) % 64 ≠ 64
    ∧ (update_prog_devmap world_devmap_open ⟨5, 64⟩ 64 "veth0".toList 4).2.stderr = [] := by
  decide

/-- Claim C10 as amended: in `update_prog_devmap`, for an interface index `i > 0` and a
capacity `c > 0`, the warning is printed exactly when `i > c`, and the entry goes
to slot `i mod c`.  The slot differs from the interface index exactly when
`i ≥ c`; so the warning has been printed whenever the slot differs from the index
and `i ≠ c`, and at `i = c` slot 0 is written and nothing is printed. -/
theorem update_prog_devmap_warning (w : World) (devmap : psabpf_bpf_map_descriptor_t)
    (intf : CStr) (i c eg : Int)
    (hc : toInt32 devmap.max_entries = c) (hi : 0 < i) (hcpos : 0 < c) :
    (update_prog_devmap w devmap i intf eg).2.stderr
        = w.stderr ++
            (if c < i then [LogMsg.devmap_modulo i intf devmap.max_entries] else [])
    ∧ (update_prog_devmap w devmap i intf eg).2.map_calls
        = w.map_calls ++
            [⟨fd_lookup w.fds devmap.fd, i % c, MapVal.devmap ⟨i, if 0 ≤ eg then eg else -1⟩,
              (map_update_answer w (fd_lookup w.fds devmap.fd) (i % c)
                (MapVal.devmap ⟨i, if 0 ≤ eg then eg else -1⟩)).ret⟩]
    ∧ (i % c ≠ i ↔ c ≤ i)
    ∧ (i % c ≠ i → i ≠ c →
        LogMsg.devmap_modulo i intf devmap.max_entries
          ∈ (update_prog_devmap w devmap i intf eg).2.stderr)
    ∧ (i = c →
        i % c = 0 ∧ (update_prog_devmap w devmap i intf eg).2.stderr = w.stderr) := by
  have hmod : Int.tmod i c = i % c := Int.tmod_eq_emod hi.le hcpos.le
  have hiff : i % c ≠ i ↔ c ≤ i := by
    constructor
    · intro h
      by_contra hlt
      exact h (Int.emod_eq_of_lt hi.le (not_le.mp hlt))
    · intro hle heq
      have := Int.emod_lt_of_pos i hcpos
      omega
  have hst : (update_prog_devmap w devmap i intf eg).2.stderr
      = w.stderr ++
          (if c < i then [LogMsg.devmap_modulo i intf devmap.max_entries] else []) := by
    rw [update_prog_devmap_eq]
    simp only [bpf_map_update_elem, hc, gt_iff_lt]
    split_ifs <;> simp
  refine ⟨hst, ?_, hiff, ?_, ?_⟩
  · rw [update_prog_devmap_eq]
    simp only [bpf_map_update_elem, map_update_answer, hc, hmod]
  · intro hne hic
    have hlt : c < i := lt_of_le_of_ne (hiff.mp hne) (Ne.symm hic)
    rw [hst, if_pos hlt]
    simp
  · intro hic
    subst hic
    rw [hst]
    simp

/-- Witness for C10 as amended: interface index 70 on a redirect table of capacity 64 goes
to slot 6, with the warning, and the call returns no error. -/
theorem update_prog_devmap_warning_witness :
    (update_prog_devmap world_devmap_open ⟨5, 64⟩ 70 "veth0".toList 4).1 = NO_ERROR
    ∧ (update_prog_devmap world_devmap_open ⟨5, 64⟩ 70 "veth0".toList 4).2.stderr
        = world_devmap_open.stderr ++
            (if (64 : Int) < 70 then [LogMsg.devmap_modulo 70 "veth0".toList 64] else [])
    ∧ (update_prog_devmap world_devmap_open ⟨5, 64⟩ 70 "veth0".toList 4).2.map_calls
        = world_devmap_open.map_calls ++
            [⟨fd_lookup world_devmap_open.fds 5, 70 % 64,
              MapVal.devmap ⟨70, if (0 : Int) ≤ 4 then 4 else -1⟩,
              (map_update_answer world_devmap_open (fd_lookup world_devmap_open.fds 5) (70 % 64)
                (MapVal.devmap ⟨70, if (0 : Int) ≤ 4 then 4 else -1⟩)).ret⟩]
    ∧ (70 : Int) % 64 = 6 :=
  have h := update_prog_devmap_warning world_devmap_open ⟨5, 64⟩ "veth0".toList 70 64 4
    (by decide) (by decide) (by decide)
  ⟨by decide, h.1, h.2.1, by decide⟩

/-! ## The indirection table is missing -/

/-- Claim C3 fails as stated: in `world_no_jump_table` the pipeline is in accelerated mode,
the interface is valid, the optimized egress program is there and the indirection
table is not; `psabpf_pipeline_add_port` returns `ENOENT`, and slot 5 of the
redirect table, empty before the call, holds an entry after it. -/
theorem psabpf_pipeline_add_port_no_jump_table_writes :
    world_no_jump_table.r_access (snprintf256 (pin_path_text defs0 7 defs0.XDP_HELPER_PROG)) ≠ 0
    ∧ world_no_jump_table.r_if_nametoindex "veth0".toList ≠ 0
    ∧ 0 ≤ (world_no_jump_table.r_obj_get (path7 defs0.XDP_EGRESS_PROG_OPTIMIZED)).ret
    ∧ (world_no_jump_table.r_open_bpf_map defs0.XDP_JUMP_TBL (build_ebpf_map_path defs0 7)).1
        ≠ NO_ERROR
    ∧ (psabpf_pipeline_add_port defs0 world_no_jump_table pipeline7 "veth0".toList).1 = ENOENT
    ∧ world_no_jump_table.tables devmap7 5 = none
    ∧ (psabpf_pipeline_add_port defs0 world_no_jump_table pipeline7 "veth0".toList).2.tables
        devmap7 5 = some (MapVal.devmap ⟨5, 4⟩) := by
  decide

/-- Claim C3 as amended: in accelerated mode, on a valid interface, when the optimized egress
program is there and the indirection table is not, and the steps before (ingress
attach, open of a redirect table of capacity other than 0, write of its entry)
have succeeded, `psabpf_pipeline_add_port` returns `ENOENT`, makes no update of the
indirection table and runs no command; the one table update of the call is the
redirect-table entry written before, which is not undone. -/
theorem psabpf_pipeline_add_port_no_jump_table (k : BpfDefs) (w : World)
    (pipeline : psabpf_pipeline_t) (intf : CStr) (i : Int) (d : psabpf_bpf_map_descriptor_t)
    (eg : Int)
    (haccess : w.r_access (snprintf256 (pin_path_text k pipeline.id k.XDP_HELPER_PROG)) ≠ 0)
    (hi : toInt32 (w.r_if_nametoindex intf) = i) (hine : i ≠ 0)
    (hattach : (xdp_attach_prog_to_port k w pipeline.id i k.XDP_INGRESS_PROG).1 = NO_ERROR)
    (hopen : w.r_open_bpf_map k.XDP_DEVMAP (build_ebpf_map_path k pipeline.id) = (NO_ERROR, d))
    (_hcap : toInt32 d.max_entries ≠ 0)
    (heg : (w.r_obj_get (snprintf256 (pin_path_text k pipeline.id k.XDP_EGRESS_PROG))).ret = eg)
    (hwrite : (w.r_map_update (Obj.map (build_ebpf_map_path k pipeline.id) k.XDP_DEVMAP)
        (Int.tmod i (toInt32 d.max_entries))
        (MapVal.devmap ⟨i, if 0 ≤ eg then eg else -1⟩)).ret = 0)
    (hopt : 0 ≤ (w.r_obj_get
        (snprintf256 (pin_path_text k pipeline.id k.XDP_EGRESS_PROG_OPTIMIZED))).ret)
    (hjump : (w.r_open_bpf_map k.XDP_JUMP_TBL (build_ebpf_map_path k pipeline.id)).1 ≠ NO_ERROR) :
    (psabpf_pipeline_add_port k w pipeline intf).1 = ENOENT
    ∧ (psabpf_pipeline_add_port k w pipeline intf).2.map_calls
        = w.map_calls ++
            [⟨some (Obj.map (build_ebpf_map_path k pipeline.id) k.XDP_DEVMAP),
              Int.tmod i (toInt32 d.max_entries),
              MapVal.devmap ⟨i, if 0 ≤ eg then eg else -1⟩, 0⟩]
    ∧ (∀ (o : Obj) (key : Int),
        (psabpf_pipeline_add_port k w pipeline intf).2.tables o key
          = if o = Obj.map (build_ebpf_map_path k pipeline.id) k.XDP_DEVMAP
                ∧ key = Int.tmod i (toInt32 d.max_entries)
            then some (MapVal.devmap ⟨i, if 0 ≤ eg then eg else -1⟩)
            else w.tables o key)
    ∧ (psabpf_pipeline_add_port k w pipeline intf).2.tc_cmds = w.tc_cmds := by
  rw [psabpf_pipeline_add_port_of_absent k w pipeline intf haccess]
  obtain ⟨e, f, x, s, hw1⟩ := xdp_attach_frame k w pipeline.id i k.XDP_INGRESS_PROG
  generalize hA : xdp_attach_prog_to_port k w pipeline.id i k.XDP_INGRESS_PROG = out
    at hattach hw1
  obtain ⟨ret, fd, w1⟩ := out
  simp only at hattach hw1
  subst hattach hw1
  generalize hegr : w.r_obj_get (snprintf256 (pin_path_text k pipeline.id k.XDP_EGRESS_PROG))
    = egr at heg
  obtain ⟨egret, egerr⟩ := egr
  simp only at heg
  subst heg
  generalize hU : w.r_map_update (Obj.map (build_ebpf_map_path k pipeline.id) k.XDP_DEVMAP)
      (Int.tmod i (toInt32 d.max_entries))
      (MapVal.devmap ⟨i, if 0 ≤ egret then egret else -1⟩) = U at hwrite
  obtain ⟨uret, uerr⟩ := U
  simp only at hwrite
  subst hwrite
  generalize hoptr : w.r_obj_get
      (snprintf256 (pin_path_text k pipeline.id k.XDP_EGRESS_PROG_OPTIMIZED)) = opt at hopt
  obtain ⟨optret, opterr⟩ := opt
  simp only at hopt
  generalize hj : w.r_open_bpf_map k.XDP_JUMP_TBL (build_ebpf_map_path k pipeline.id) = j
    at hjump
  obtain ⟨jret, jfd, jmax⟩ := j
  simp only at hjump
  simp only [xdp_port_add, hi, hine, hA, open_obj_by_name, bpf_obj_get, close_object_fd,
    update_prog_devmap_eq, bpf_map_update_elem, tc_attach_eq, if_false, ne_eq,
    not_true_eq_false, open_bpf_map, hopen, hegr, hoptr, hj, if_true, fd_lookup_head,
    map_update_answer, hU, decide_False, decide_True, ge_iff_le, hopt, hjump,
    not_false_eq_true]
  refine ⟨trivial, trivial, ?_, trivial⟩
  intro o key
  by_cases ho : o = Obj.map (build_ebpf_map_path k pipeline.id) k.XDP_DEVMAP
  · subst ho
    simp
  · have ho2 : ¬ (some (Obj.map (build_ebpf_map_path k pipeline.id) k.XDP_DEVMAP) = some o) := by
      intro h; exact ho (Option.some.inj h).symm
    simp [ho, ho2]

/-- Witness for C3 as amended: in `world_no_jump_table` the call on `veth0` returns `ENOENT`,
its one table update is the redirect-table entry at slot 5, and it runs no
command. -/
theorem psabpf_pipeline_add_port_no_jump_table_witness :
    (psabpf_pipeline_add_port defs0 world_no_jump_table pipeline7 "veth0".toList).1 = ENOENT
    ∧ (psabpf_pipeline_add_port defs0 world_no_jump_table pipeline7 "veth0".toList).2.map_calls
        = world_no_jump_table.map_calls ++
            [⟨some (Obj.map (build_ebpf_map_path defs0 pipeline7.id) defs0.XDP_DEVMAP),
              Int.tmod 5 (toInt32 64), MapVal.devmap ⟨5, if (0 : Int) ≤ 4 then 4 else -1⟩, 0⟩]
    ∧ (psabpf_pipeline_add_port defs0 world_no_jump_table pipeline7 "veth0".toList).2.tc_cmds
        = world_no_jump_table.tc_cmds :=
  have h := psabpf_pipeline_add_port_no_jump_table defs0 world_no_jump_table pipeline7
    "veth0".toList 5 ⟨5, 64⟩ 4 (by decide) (by decide) (by decide) (by decide) (by decide)
    (by decide) (by decide) (by decide) (by decide) (by decide)
  ⟨h.1, h.2.1, h.2.2.2⟩

/-! ## Exit statuses of the external tool -/

/-- The function `xdp_attach_prog_to_port` neither reads nor changes what belongs to
`system`. -/
theorem xdp_attach_system_comm (k : BpfDefs) (w : World) (id ifindex : Int) (prog : CStr)
    (sys : Nat → CStr → Int) :
    xdp_attach_prog_to_port k { w with r_system := sys } id ifindex prog
      = ((xdp_attach_prog_to_port k w id ifindex prog).1,
         (xdp_attach_prog_to_port k w id ifindex prog).2.1,
         { (xdp_attach_prog_to_port k w id ifindex prog).2.2 with r_system := sys }) := by
  unfold xdp_attach_prog_to_port open_obj_by_name bpf_obj_get bpf_set_link_xdp_fd
    close_object_fd fprintf_stderr
  simp only []
  split_ifs <;> rfl

/-- The return value of `tc_port_add` does not depend on the exit statuses. -/
theorem tc_port_add_system_indep (k : BpfDefs) (w : World) (id : Int) (intf : CStr)
    (sys : Nat → CStr → Int) :
    (tc_port_add k { w with r_system := sys } id intf).1 = (tc_port_add k w id intf).1 := by
  simp only [tc_port_add, xdp_attach_system_comm]
  generalize xdp_attach_prog_to_port k w id (toInt32 (w.r_if_nametoindex intf))
    k.XDP_HELPER_PROG = out
  obtain ⟨ret, fd, w1⟩ := out
  simp only [apply_ite Prod.fst]

/-- The return value of `xdp_port_add` does not depend on the exit statuses. -/
theorem xdp_port_add_system_indep (k : BpfDefs) (w : World) (id : Int) (intf : CStr)
    (sys : Nat → CStr → Int) :
    (xdp_port_add k { w with r_system := sys } id intf).1 = (xdp_port_add k w id intf).1 := by
  simp only [xdp_port_add, xdp_attach_system_comm]
  generalize xdp_attach_prog_to_port k w id (toInt32 (w.r_if_nametoindex intf))
    k.XDP_INGRESS_PROG = out
  obtain ⟨ret, fd, w1⟩ := out
  simp only [open_obj_by_name, bpf_obj_get, close_object_fd,
    update_prog_devmap_eq, bpf_map_update_elem, tc_attach_eq, open_bpf_map,
    map_update_answer, apply_ite Prod.fst]

/-- Claim C7 fails as stated: `world0` and `world_tc_fails` differ in the exit statuses
only, and `psabpf_pipeline_del_port` returns 0 in the first and the exit status
256 in the second. -/
theorem psabpf_pipeline_del_port_returns_exit_status :
    world_tc_fails = { world0 with r_system := fun _ _ => 256 }
    ∧ (psabpf_pipeline_del_port world0 pipeline7 "veth0".toList).1 = 0
    ∧ (psabpf_pipeline_del_port world_tc_fails pipeline7 "veth0".toList).1 = 256 := by
  refine ⟨rfl, ?_, ?_⟩ <;> decide

/-- Claim C7 as amended: the exit statuses of the external tool never change the result of
an attach call: two runs of `psabpf_pipeline_add_port` that differ only in the exit
statuses return the same value.  A detach call returns the exit status of the
tool: when the interface is valid and the hook is cleared,
`psabpf_pipeline_del_port` returns what `system` returned. -/
theorem psabpf_pipeline_port_exit_status (k : BpfDefs) (w : World)
    (pipeline : psabpf_pipeline_t) (intf : CStr) (sys : Nat → CStr → Int) :
    (psabpf_pipeline_add_port k { w with r_system := sys } pipeline intf).1
        = (psabpf_pipeline_add_port k w pipeline intf).1
    ∧ (toInt32 (w.r_if_nametoindex intf) ≠ 0 →
        w.r_set_link_xdp (toInt32 (w.r_if_nametoindex intf)) (-1) 0 = 0 →
        (psabpf_pipeline_del_port w pipeline intf).1 = w.r_system w.tc_cmds.length (tc_qdisc_del_cmd intf)
        ∧ (psabpf_pipeline_del_port w pipeline intf).2.tc_cmds = w.tc_cmds ++ [tc_qdisc_del_cmd intf]) := by
  constructor
  · unfold psabpf_pipeline_add_port
    simp only []
    split_ifs
    · exact xdp_port_add_system_indep k w pipeline.id intf sys
    · exact tc_port_add_system_indep k w pipeline.id intf sys
  · intro hi hclear
    simp only [psabpf_pipeline_del_port, hi, bpf_set_link_xdp_fd, hclear, system, if_false,
      ne_eq, not_true_eq_false]
    split_ifs with h
    · exact ⟨h.symm, rfl⟩
    · exact ⟨rfl, rfl⟩

/-- Witness for C7 as amended: on `veth0` in `world_tc_fails` the hook is cleared and the
detach call returns the exit status 256, while the attach call returns 0 as it
does in `world0`. -/
theorem psabpf_pipeline_port_exit_status_witness :
    (psabpf_pipeline_add_port defs0 world_tc_fails pipeline7 "veth0".toList).1
        = (psabpf_pipeline_add_port defs0 world0 pipeline7 "veth0".toList).1
    ∧ (psabpf_pipeline_del_port world_tc_fails pipeline7 "veth0".toList).1 = 256 :=
  ⟨(psabpf_pipeline_port_exit_status defs0 world0 pipeline7 "veth0".toList (fun _ _ => 256)).1,
   ((psabpf_pipeline_port_exit_status defs0 world_tc_fails pipeline7 "veth0".toList
      (fun _ _ => 0)).2 (by decide) (by decide)).1⟩

/-! ## Pin names -/

/-- The function `program_pin_name` maps `'/'` to `'_'` and every other character to itself. -/
theorem program_pin_name_eq_map (s : CStr) :
    program_pin_name s = s.map (fun c => if c = '/' then '_' else c) := by
  induction s with
  | nil => rfl
  | cons c rest ih =>
    by_cases h : c = '/'
    · simp [program_pin_name, h, ih]
    · simp [program_pin_name, h, ih]

/-- Two characters have the same image under the replacement iff they are `same_flat`. -/
theorem flat_eq_iff (a b : Char) :
    ((if a = '/' then '_' else a) = (if b = '/' then '_' else b)) ↔ same_flat a b := by
  unfold same_flat
  have hne : ('/' : Char) ≠ '_' := by decide
  by_cases ha : a = '/'
  · by_cases hb : b = '/'
    · subst ha hb
      simp
    · subst ha
      rw [if_pos rfl, if_neg hb]
      constructor
      · intro h; right; left; exact ⟨rfl, h.symm⟩
      · intro h
        rcases h with h | h | h
        · exact absurd h.symm hb
        · exact h.2.symm
        · exact absurd h.2 hb
  · by_cases hb : b = '/'
    · subst hb
      rw [if_neg ha, if_pos rfl]
      constructor
      · intro h; right; right; exact ⟨h, rfl⟩
      · intro h
        rcases h with h | h | h
        · exact absurd h ha
        · exact absurd h.1 ha
        · exact h.1
    · rw [if_neg ha, if_neg hb]
      constructor
      · intro h; left; exact h
      · intro h
        rcases h with h | h | h
        · exact h
        · exact absurd h.1 ha
        · exact absurd h.2 hb

/-- Equal pin names, position by position. -/
theorem program_pin_name_eq_iff (s t : CStr) :
    program_pin_name s = program_pin_name t ↔ List.Forall₂ same_flat s t := by
  rw [program_pin_name_eq_map, program_pin_name_eq_map]
  induction s generalizing t with
  | nil =>
    cases t with
    | nil => simp
    | cons b t2 => simp
  | cons a s2 ih =>
    cases t with
    | nil => simp
    | cons b t2 =>
      simp only [List.map_cons, List.cons.injEq, List.forall₂_cons]
      rw [flat_eq_iff, ih]

/-- Names without `'_'` that `program_pin_name` does not tell apart are equal. -/
theorem eq_of_forall₂_same_flat (s t : CStr) (hs : '_' ∉ s) (ht : '_' ∉ t)
    (h : List.Forall₂ same_flat s t) : s = t := by
  induction h with
  | nil => rfl
  | @cons a b l1 l2 hab _ ih =>
    have ha : a ≠ '_' := fun e => hs (by simp [e])
    have hb : b ≠ '_' := fun e => ht (by simp [e])
    have hs2 : '_' ∉ l1 := fun m => hs (List.mem_cons_of_mem _ m)
    have ht2 : '_' ∉ l2 := fun m => ht (List.mem_cons_of_mem _ m)
    have hab2 : a = b := by
      rcases hab with h | h | h
      · exact h
      · exact absurd h.2 hb
      · exact absurd h.1 ha
    rw [hab2, ih hs2 ht2]

/-- Claim C6 fails as stated: the section names `xdp/egress` and `xdp_egress` are distinct
and have the same pin name, and programs with these names are pinned at the same
path. -/
theorem program_pin_name_collision :
    "xdp/egress".toList ≠ "xdp_egress".toList
    ∧ program_pin_name "xdp/egress".toList = program_pin_name "xdp_egress".toList
    ∧ program_pin_path defs0 7 ⟨"xdp/egress".toList, 3, 0, 0⟩
        = program_pin_path defs0 7 ⟨"xdp_egress".toList, 4, 0, 0⟩ := by
  decide

/-- Claim C6 as amended: `program_pin_name` replaces every `'/'` by `'_'` and leaves the other
characters and the length as they are.  Two section names have the same pin name
exactly when they have the same length and, position by position, the same
character or `'/'` in one and `'_'` in the other; so section names without `'_'`
that are distinct have distinct pin names, and are pinned at distinct paths when
the path texts fit the 256-byte buffer. -/
theorem program_pin_name_collisions (s t : CStr) :
    program_pin_name s = s.map (fun c => if c = '/' then '_' else c)
    ∧ (program_pin_name s).length = s.length
    ∧ (program_pin_name s = program_pin_name t ↔ List.Forall₂ same_flat s t)
    ∧ ('_' ∉ s → '_' ∉ t → s ≠ t → program_pin_name s ≠ program_pin_name t)
    ∧ (∀ (k : BpfDefs) (id : Int) (p q : bpf_program),
        p.section_name = s → q.section_name = t → '_' ∉ s → '_' ∉ t → s ≠ t →
        (pin_path_text k id (program_pin_name s)).length ≤ 255 →
        (pin_path_text k id (program_pin_name t)).length ≤ 255 →
        program_pin_path k id p ≠ program_pin_path k id q) := by
  have hmap := program_pin_name_eq_map s
  have hinj : '_' ∉ s → '_' ∉ t → s ≠ t → program_pin_name s ≠ program_pin_name t := by
    intro hs ht hne heq
    exact hne (eq_of_forall₂_same_flat s t hs ht ((program_pin_name_eq_iff s t).mp heq))
  refine ⟨hmap, by rw [hmap, List.length_map], program_pin_name_eq_iff s t, hinj, ?_⟩
  intro k id p q hp hq hs ht hne hls hlt heq
  apply hinj hs ht hne
  unfold program_pin_path snprintf256 at heq
  rw [hp, hq, List.take_of_length_le hls, List.take_of_length_le hlt] at heq
  unfold pin_path_text at heq
  exact List.append_cancel_left heq

/-- Witness for C6 as amended: `xdp/ingress` and `xdp/egress` contain no `'_'`, are distinct,
and have distinct pin names. -/
theorem program_pin_name_collisions_witness :
    program_pin_name "xdp/ingress".toList ≠ program_pin_name "xdp/egress".toList :=
  (program_pin_name_collisions "xdp/ingress".toList "xdp/egress".toList).2.2.2.1
    (by decide) (by decide) (by decide)

/-! ## Loading: the program loop -/

/-- The program loop changes the pinned paths only, by the paths of the programs it
pins before it leaves. -/
theorem load_programs_state (k : BpfDefs) (id : Int) (progs : List bpf_program) (ret : Int)
    (s : LoadState) :
    (load_programs k id progs ret s).2.2
      = { s with pinned := s.pinned ++ pinned_before_failure k id progs } := by
  induction progs generalizing ret s with
  | nil => simp [load_programs, pinned_before_failure]
  | cons pos rest ih =>
    unfold load_programs
    by_cases hinit : is_init_prog k pos = true
    · by_cases ht : pos.r_test_run = 0
      · simp only [hinit, if_true, do_initialize_maps, ht, ne_eq, not_true_eq_false, if_false]
        rw [ih]
        simp [pinned_before_failure, prog_fails, hinit, ht]
      · simp [hinit, do_initialize_maps, ht, pinned_before_failure, prog_fails]
    · simp only [Bool.not_eq_true] at hinit
      by_cases hp : pos.r_pin < 0
      · simp [hinit, bpf_program__pin, hp, pinned_before_failure, prog_fails]
      · simp only [hinit, Bool.false_eq_true, if_false, bpf_program__pin, hp]
        rw [ih]
        simp [pinned_before_failure, prog_fails, hinit, hp]

/-- When the loop meets a failing program it leaves through `goto err_close_obj`
with a value of `ret` that is not 0. -/
theorem load_programs_fails (k : BpfDefs) (id : Int) (progs : List bpf_program) (ret : Int)
    (s : LoadState) (h : ∃ pos ∈ progs, prog_fails k pos = true) :
    (load_programs k id progs ret s).1 = false ∧ (load_programs k id progs ret s).2.1 ≠ 0 := by
  induction progs generalizing ret s with
  | nil => simp at h
  | cons pos rest ih =>
    unfold load_programs
    by_cases hinit : is_init_prog k pos = true
    · by_cases ht : pos.r_test_run = 0
      · simp only [hinit, if_true, do_initialize_maps, ht, ne_eq, not_true_eq_false, if_false]
        apply ih
        obtain ⟨q, hq, hf⟩ := h
        rcases List.mem_cons.mp hq with e | e
        · subst e
          simp [prog_fails, hinit, ht] at hf
        · exact ⟨q, e, hf⟩
      · simp [hinit, do_initialize_maps, ht]
    · simp only [Bool.not_eq_true] at hinit
      by_cases hp : pos.r_pin < 0
      · simp only [hinit, Bool.false_eq_true, if_false, bpf_program__pin, hp, if_true]
        exact ⟨trivial, by omega⟩
      · simp only [hinit, Bool.false_eq_true, if_false, bpf_program__pin, hp]
        apply ih
        obtain ⟨q, hq, hf⟩ := h
        rcases List.mem_cons.mp hq with e | e
        · subst e
          simp [prog_fails, hinit, hp] at hf
        · exact ⟨q, e, hf⟩

/-- Claim C4 fails as stated: the artifact `obj_init_fails` has an initializer whose test run
fails; `psabpf_pipeline_load` returns an error, and the dataplane program that
precedes the initializer is pinned under pipeline 7 afterwards. -/
theorem psabpf_pipeline_load_leaves_pin :
    (psabpf_pipeline_load defs0 (prog_load_ok obj_init_fails) state0 pipeline7).1 ≠ 0
    ∧ state0.pinned = []
    ∧ (psabpf_pipeline_load defs0 (prog_load_ok obj_init_fails) state0 pipeline7).2.pinned
        = ["/sys/fs/bpf/pipeline7/xdp_ingress_xdp-ingress".toList] := by
  decide

/-- Claim C4 as amended: when an initializer of the artifact returns a non-zero result from
its test run, `psabpf_pipeline_load` returns an error and closes the object; it
pins no table, and no program at or after the first program that fails.  The
programs it has pinned before that program stay pinned. -/
theorem psabpf_pipeline_load_initializer_fails (k : BpfDefs)
    (r_prog_load : CStr → Int × Option bpf_object) (s : LoadState)
    (pipeline : psabpf_pipeline_t) (ret : Int) (obj : bpf_object)
    (hload : r_prog_load pipeline.obj = (ret, some obj))
    (hinit : ∃ pos ∈ obj.programs, is_init_prog k pos = true ∧ pos.r_test_run ≠ 0) :
    (psabpf_pipeline_load k r_prog_load s pipeline).1 ≠ 0
    ∧ (0 ≤ ret →
        (psabpf_pipeline_load k r_prog_load s pipeline).2.pinned
            = s.pinned ++ pinned_before_failure k pipeline.id obj.programs
        ∧ (psabpf_pipeline_load k r_prog_load s pipeline).2.closed = s.closed ++ [obj])
    ∧ (ret < 0 → (psabpf_pipeline_load k r_prog_load s pipeline).2.pinned = s.pinned) := by
  have hf : ∃ pos ∈ obj.programs, prog_fails k pos = true := by
    obtain ⟨pos, hm, hi, ht⟩ := hinit
    exact ⟨pos, hm, by simp [prog_fails, hi, ht]⟩
  by_cases hret : ret < 0
  · simp [psabpf_pipeline_load, hload, hret]
  · have h1 := load_programs_fails k pipeline.id obj.programs ret s hf
    have h2 := load_programs_state k pipeline.id obj.programs ret s
    simp only [psabpf_pipeline_load, hload, hret, if_false]
    generalize load_programs k pipeline.id obj.programs ret s = out at h1 h2 ⊢
    obtain ⟨completed, r, s1⟩ := out
    simp only at h1 h2
    obtain ⟨hc, hr⟩ := h1
    subst hc h2
    simp [bpf_object__close, hr, not_lt.mp hret]

/-- Witness for C4 as amended: for `obj_init_fails` the load fails and the pinned paths are
those of the programs before the failing initializer. -/
theorem psabpf_pipeline_load_initializer_fails_witness :
    (psabpf_pipeline_load defs0 (prog_load_ok obj_init_fails) state0 pipeline7).1 ≠ 0
    ∧ (psabpf_pipeline_load defs0 (prog_load_ok obj_init_fails) state0 pipeline7).2.pinned
        = state0.pinned ++ pinned_before_failure defs0 pipeline7.id obj_init_fails.programs :=
  have h := psabpf_pipeline_load_initializer_fails defs0 (prog_load_ok obj_init_fails) state0
    pipeline7 0 obj_init_fails rfl ⟨⟨"xdp/map-initializer".toList, 4, -1, 0⟩, by decide, by decide⟩
  ⟨h.1, (h.2.1 (by decide)).1⟩

/-! ## Loading: the table loop -/

/-- Claim C5, the code on `obj_map_pin_fails`: every program of the artifact initializes or
pins, the pin of the table `tx_port` fails, the table loop leaves through
`goto err_close_obj`, and `psabpf_pipeline_load` returns 0; the table is not pinned
at its path under pipeline 7. -/
theorem psabpf_pipeline_load_returns_zero_on_map_pin_failure :
    (load_maps defs0 7 obj_map_pin_fails.maps
        (load_programs defs0 7 obj_map_pin_fails.programs 0 state0).2.2).1 = false
    ∧ (psabpf_pipeline_load defs0 (prog_load_ok obj_map_pin_fails) state0 pipeline7).1 = 0
    ∧ "/sys/fs/bpf/pipeline7/maps/tx_port".toList
        ∉ (psabpf_pipeline_load defs0 (prog_load_ok obj_map_pin_fails) state0 pipeline7).2.pinned := by
  decide

end Psabpf
